import Mathlib

/-!
Verification development for the transaction-coordination layer of the
repository (Go package `tx`: files `tx.go`, `sqlite.go`, `sql.go` and the
pgx coordinator file).  The Go code is shallowly embedded: Go `error`
values become `Option GoErr`, Go panics become explicit `PanicVal`
results, the nondeterministic environment (results of `BeginTx`, `Exec`,
`Commit`, `Rollback` on the underlying database) is an explicit `TxWorld`
record, and each stateful method returns its receiver state explicitly so
that frame conditions are visible.  Every invocation of `Commit`,
`Rollback`, `BeginTx`, `Exec`, context-timeout installation and the
repository binder is recorded in an event trace.
-/

/-- Embedding of Go `error` values that can arise in the `tx` package.
Wrapper constructors mirror the wrapping performed by the source:
`rollbackFailed` is the two-`%w` wrap built in `tx.go` line 88,
`commitFailed` is the wrap built in `tx.go` line 94, and
`tagTransactionTimeout` is `errtag.Tag[ErrTagTransactionTimeout]`, whose
`Unwrap` returns the cause (errtag `tag.go`). -/
inductive GoErr : Type where
  | errorString (s : String)
  | contextDeadlineExceeded
  | contextCanceled
  | pgError (code : String)
  | sqliteError (code : Int)
  | rollbackFailed (orig : GoErr) (rbErr : GoErr)
  | commitFailed (cErr : GoErr)
  | tagTransactionTimeout (cause : GoErr)
deriving DecidableEq

/-- Go `errors.Is(err, context.DeadlineExceeded)`: walks the unwrap chain
(the two-`%w` wrap unwraps to both arguments, in order; the errtag wrapper
unwraps to its cause). -/
def GoErr.isDeadlineExceeded : GoErr → Bool
  | .contextDeadlineExceeded => true
  | .rollbackFailed a b => a.isDeadlineExceeded || b.isDeadlineExceeded
  | .commitFailed c => c.isDeadlineExceeded
  | .tagTransactionTimeout c => c.isDeadlineExceeded
  | _ => false

/-- Go `errors.As(err, &pgErr)` for `*pgconn.PgError`: returns the code of
the first `pgError` in the unwrap chain (depth-first, left to right). -/
def GoErr.asPgError : GoErr → Option String
  | .pgError c => some c
  | .rollbackFailed a b => a.asPgError <|> b.asPgError
  | .commitFailed c => c.asPgError
  | .tagTransactionTimeout c => c.asPgError
  | _ => none

/-- Go `errors.As(err, &se)` for `*sqlite.Error` (modernc.org/sqlite):
returns the code of the first `sqliteError` in the unwrap chain. -/
def GoErr.asSQLiteError : GoErr → Option Int
  | .sqliteError c => some c
  | .rollbackFailed a b => a.asSQLiteError <|> b.asSQLiteError
  | .commitFailed c => c.asSQLiteError
  | .tagTransactionTimeout c => c.asSQLiteError
  | _ => none

/-- Go `errors.Is(err, target)` for an arbitrary target error value in the
unwrap chain. -/
def GoErr.errIs (err target : GoErr) : Bool :=
  err = target ||
    match err with
    | .rollbackFailed a b => a.errIs target || b.errIs target
    | .commitFailed c => c.errIs target
    | .tagTransactionTimeout c => c.errIs target
    | _ => false

/-- A Go panic payload. `withRollbackErr p rbErr` is the value built by the
executor when rollback fails while handling a panic
(`fmt.Errorf("panic: %v; failed to rollback transaction: %w", r, rErr)`,
`tx.go` line 80): it keeps the original payload and the rollback error. -/
inductive PanicVal : Type where
  | val (s : String)
  | withRollbackErr (orig : PanicVal) (rbErr : GoErr)
deriving DecidableEq

/-- The panic payload `outer` textually/structurally still carries `inner`
(the original panic was not replaced). -/
def PanicVal.carries (outer inner : PanicVal) : Bool :=
  outer = inner ||
    match outer with
    | .withRollbackErr o _ => o.carries inner
    | .val _ => false

/-- Outcome of running a Go function value: it either returns an `error`
(possibly nil) or panics. -/
inductive FnOutcome : Type where
  | ret (e : Option GoErr)
  | panicked (p : PanicVal)
deriving DecidableEq

/-- Result of a call that, in Go, returns an `error` but may also let a
panic escape. -/
inductive DoResult : Type where
  | ret (e : Option GoErr)
  | panicked (p : PanicVal)
deriving DecidableEq

/-- Result of a call that, in Go, returns a value of type `R` but may also
let a panic escape. -/
inductive GoVal (R : Type) : Type where
  | ret (v : R)
  | panicked (p : PanicVal)

/-- Observable actions on the underlying database recorded by the
embedding: beginning a native transaction, executing a SQL statement,
installing a context timeout, invoking the caller-supplied repository
binder, and invoking `Commit`/`Rollback` on the transaction handle. -/
inductive Event : Type where
  | beginTx
  | exec (sql : String)
  | ctxWithTimeout (ns : Int)
  | binderCall
  | commit
  | rollback
deriving DecidableEq

/-- Behavior of one transaction handle seen through the `Tx` interface:
what `Commit(ctx)` and `Rollback(ctx)` would return if invoked. -/
structure TxHandleBehavior : Type where
  commitErr : Option GoErr
  rollbackErr : Option GoErr

/-- Embedding of `tx.Do` (`tx.go` lines 76-98).  `fnRes` is the outcome of
the work function `fn(ctx)`.  The deferred `recover` block handles the
panic case: it rolls back, re-panicking with the annotated value if
rollback fails and with the original payload otherwise.  A returned error
triggers rollback (compounding a rollback failure); a nil return triggers
commit (wrapping a commit failure).  The trace records the handle
invocations performed. -/
def Do (tx : TxHandleBehavior) (fnRes : FnOutcome) : DoResult × List Event :=
  match fnRes with
  | .panicked p =>
      match tx.rollbackErr with
      | some rErr => (.panicked (.withRollbackErr p rErr), [.rollback])
      | none => (.panicked p, [.rollback])
  | .ret (some err) =>
      match tx.rollbackErr with
      | some rErr => (.ret (some (.rollbackFailed err rErr)), [.rollback])
      | none => (.ret (some err), [.rollback])
  | .ret none =>
      match tx.commitErr with
      | some cErr => (.ret (some (.commitFailed cErr)), [.commit])
      | none => (.ret none, [.commit])

/-- Constant `pgerrcode.IdleInTransactionSessionTimeout` from the external
library github.com/jackc/pgerrcode. -/
def pgerrcodeIdleInTransactionSessionTimeout : String := "25P03"

/-- Constant `lib.SQLITE_BUSY` from modernc.org/sqlite/lib. -/
def SQLITE_BUSY : Int := 5

/-- Constant `lib.SQLITE_LOCKED` from modernc.org/sqlite/lib. -/
def SQLITE_LOCKED : Int := 6

/-- Embedding of `TagPGXTimeoutErr` (pgx coordinator file, lines 148-154):
if the unwrap chain holds a `*pgconn.PgError` whose code is
`pgerrcode.IdleInTransactionSessionTimeout` or the literal `"25P04"`, the
whole error is rewrapped with `ErrTagTransactionTimeout`; otherwise the
error is returned unchanged (`errors.As` on a nil error is false). -/
def TagPGXTimeoutErr : Option GoErr → Option GoErr
  | none => none
  | some err =>
      match err.asPgError with
      | some code =>
          if code = pgerrcodeIdleInTransactionSessionTimeout || code = "25P04" then
            some (.tagTransactionTimeout err)
          else
            some err
      | none => some err

/-- Embedding of `TagSQLiteTimeoutErr` (`sqlite.go` lines 156-171): nil
passes through; `context.DeadlineExceeded` anywhere in the chain is
rewrapped; otherwise an `*sqlite.Error` in the chain whose code is
`SQLITE_BUSY` or `SQLITE_LOCKED` is rewrapped; everything else is
returned unchanged. -/
def TagSQLiteTimeoutErr : Option GoErr → Option GoErr
  | none => none
  | some err =>
      if err.isDeadlineExceeded then
        some (.tagTransactionTimeout err)
      else
        match err.asSQLiteError with
        | some code =>
            if code = SQLITE_BUSY || code = SQLITE_LOCKED then
              some (.tagTransactionTimeout err)
            else
              some err
        | none => some err

/-- Dynamic type of a Go `tx.Tx` interface value: a native pgx transaction
(`pgx.Tx`), the wrapper `*tx.SQLTxWrapper` around a `*sql.Tx`, or a value
of some other dynamic type.  `id` identifies the native transaction. -/
inductive Handle : Type where
  | pgxTx (id : Nat)
  | sqlTxWrapper (id : Nat)
  | otherTx (id : Nat)
deriving DecidableEq

/-- Go type assertion `t.(pgx.Tx)` succeeds exactly on `pgxTx` values
(the wrapper and other types do not implement the wide `pgx.Tx`
interface). -/
def Handle.isPgxTx : Handle → Bool
  | .pgxTx _ => true
  | _ => false

/-- Go type assertion `t.(*tx.SQLTxWrapper)` succeeds exactly on
`sqlTxWrapper` values. -/
def Handle.isSQLTxWrapper : Handle → Bool
  | .sqlTxWrapper _ => true
  | _ => false

/-- One Go nanosecond-valued `time.Duration` unit: `time.Second`. -/
def second : Int := 1000000000

/-- `tx.DefaultTimeout = 10 * time.Second` (`tx.go` line 9). -/
def DefaultTimeout : Int := 10 * second

/-- State of a `PGXRepositoryTxer[R]` (pgx coordinator file lines 60-70):
`Timeout` is `Config.Timeout` in nanoseconds and `txn` the optional
in-flight transaction handle.  The connection source and the binder
`Config.WithTxFunc` are kept outside the structure: the environment is the
explicit `TxWorld`, and the binder is passed to each operation (a Lean
structure cannot store a function mentioning the structure itself). -/
structure PGXRepositoryTxer : Type where
  Timeout : Int
  txn : Option Handle
deriving DecidableEq

/-- State of a `SQLiteRepositoryTxer[R]` (`sqlite.go` lines 65-76), with
the same conventions as `PGXRepositoryTxer`. -/
structure SQLiteRepositoryTxer : Type where
  Timeout : Int
  txn : Option Handle
deriving DecidableEq

/-- Embedding of `NewPGXRepositoryTxer` (pgx coordinator file lines
75-83): a configured timeout of zero or above ten seconds is replaced by
`DefaultTimeout`; `txn` starts absent. -/
def NewPGXRepositoryTxer (cfgTimeout : Int) : PGXRepositoryTxer :=
  { Timeout := if cfgTimeout = 0 ∨ 10 * second < cfgTimeout then DefaultTimeout else cfgTimeout
    txn := none }

/-- Embedding of `NewSQLiteRepositoryTxer` (`sqlite.go` lines 79-84), with
the same timeout replacement. -/
def NewSQLiteRepositoryTxer (cfgTimeout : Int) : SQLiteRepositoryTxer :=
  { Timeout := if cfgTimeout = 0 ∨ 10 * second < cfgTimeout then DefaultTimeout else cfgTimeout
    txn := none }

/-- `PGXRepositoryTxer.InTx` (pgx coordinator file lines 144-146). -/
def PGXRepositoryTxer.InTx (r : PGXRepositoryTxer) : Bool := r.txn.isSome

/-- `SQLiteRepositoryTxer.InTx` (`sqlite.go` line 154). -/
def SQLiteRepositoryTxer.InTx (r : SQLiteRepositoryTxer) : Bool := r.txn.isSome

/-- Panic message of `PGXRepositoryTxer.WithTx` on a type-assertion
failure. -/
def pgxWithTxPanicMsg : String := "tx.PGXRepositoryTxer.WithTx: expected pgx.Tx"

/-- Panic message of `SQLiteRepositoryTxer.WithTx` on a type-assertion
failure. -/
def sqliteWithTxPanicMsg : String := "tx.SQLiteRepositoryTxer.WithTx: expected *tx.SQLTxWrapper"

/-- Embedding of `PGXRepositoryTxer.WithTx` (pgx coordinator file lines
90-103).  Returns the Go result, the receiver state after the call (the
source never writes through the receiver pointer, only to the local copy
`cpy`), and the event trace.  With an in-flight transaction the input repo
is returned as is; otherwise the handle must be a `pgx.Tx`, and the binder
is invoked with a copy of the coordinator carrying the handle. -/
def PGXRepositoryTxer.WithTx {R : Type} (r : PGXRepositoryTxer)
    (withTxFunc : R → PGXRepositoryTxer → Handle → R)
    (repo : R) (t : Handle) : GoVal R × PGXRepositoryTxer × List Event :=
  if r.txn.isSome then
    (.ret repo, r, [])
  else
    match t with
    | .pgxTx i =>
        (.ret (withTxFunc repo { r with txn := some (.pgxTx i) } (.pgxTx i)), r, [.binderCall])
    | _ => (.panicked (.val pgxWithTxPanicMsg), r, [])

/-- Embedding of `SQLiteRepositoryTxer.WithTx` (`sqlite.go` lines
91-102), with the same shape; the required handle type is
`*tx.SQLTxWrapper`. -/
def SQLiteRepositoryTxer.WithTx {R : Type} (r : SQLiteRepositoryTxer)
    (withTxFunc : R → SQLiteRepositoryTxer → Handle → R)
    (repo : R) (t : Handle) : GoVal R × SQLiteRepositoryTxer × List Event :=
  if r.txn.isSome then
    (.ret repo, r, [])
  else
    match t with
    | .sqlTxWrapper i =>
        (.ret (withTxFunc repo { r with txn := some (.sqlTxWrapper i) } (.sqlTxWrapper i)),
          r, [.binderCall])
    | _ => (.panicked (.val sqliteWithTxPanicMsg), r, [])

/-- Environment of one top-level `BeginTxFunc` call: the result of
`BeginTx` on the connection source (an error, or a fresh native
transaction id), the result of each SQL statement executed on the new
transaction, and the behavior of `Commit`/`Rollback` on its handle. -/
structure TxWorld : Type where
  beginTx : Except GoErr Nat
  execErr : String → Option GoErr
  commitErr : Option GoErr
  rollbackErr : Option GoErr

/-- Coercion from a work-function outcome to the result of a call that
forwards it unchanged (`return fn(ctx, r.txn, repo)`). -/
def liftFn : FnOutcome → DoResult
  | .ret e => .ret e
  | .panicked p => .panicked p

/-- SQL text `fmt.Sprintf("SET LOCAL transaction_timeout = '%dms'", ms)`. -/
def pgxSetTransactionTimeoutSQL (ms : Int) : String :=
  "SET LOCAL transaction_timeout = \x27" ++ toString ms ++ "ms\x27"

/-- SQL text of the idle-in-transaction session directive. -/
def pgxSetIdleTimeoutSQL (ms : Int) : String :=
  "SET LOCAL idle_in_transaction_session_timeout = \x27" ++ toString ms ++ "ms\x27"

/-- SQL text `fmt.Sprintf("PRAGMA busy_timeout=%d", ms)`. -/
def sqlitePragmaBusyTimeoutSQL (ms : Int) : String :=
  "PRAGMA busy_timeout=" ++ toString ms

/-- Embedding of `PGXRepositoryTxer.BeginTxFunc` (pgx coordinator file
lines 116-141).  With an ambient transaction, `fn` is invoked directly on
the stored handle and input repo and its outcome forwarded.  Otherwise:
begin a native transaction (an error is returned untagged); execute the
two `SET LOCAL` directives, each error being returned as is; bind the
repository through `WithTx` inside the executor closure; drive the
closure through `Do`; pass a resulting error through `TagPGXTimeoutErr`.
`fn` takes the handle and the bound repository (the context is implicit
in `TxWorld`). -/
def PGXRepositoryTxer.BeginTxFunc {R : Type} (r : PGXRepositoryTxer)
    (withTxFunc : R → PGXRepositoryTxer → Handle → R)
    (w : TxWorld) (repo : R) (fn : Handle → R → FnOutcome) :
    DoResult × PGXRepositoryTxer × List Event :=
  match r.txn with
  | some h => (liftFn (fn h repo), r, [])
  | none =>
      match w.beginTx with
      | .error e => (.ret (some e), r, [.beginTx])
      | .ok i =>
          let h := Handle.pgxTx i
          let ms := Int.tdiv r.Timeout 1000000
          let s1 := pgxSetTransactionTimeoutSQL ms
          let s2 := pgxSetIdleTimeoutSQL ms
          match w.execErr s1 with
          | some e => (.ret (some e), r, [.beginTx, .exec s1])
          | none =>
              match w.execErr s2 with
              | some e => (.ret (some e), r, [.beginTx, .exec s1, .exec s2])
              | none =>
                  let wres := r.WithTx withTxFunc repo h
                  let closure : FnOutcome :=
                    match wres.1 with
                    | .ret repoTx => fn h repoTx
                    | .panicked p => .panicked p
                  let dres := Do { commitErr := w.commitErr, rollbackErr := w.rollbackErr } closure
                  let evs := [Event.beginTx, .exec s1, .exec s2] ++ wres.2.2 ++ dres.2
                  match dres.1 with
                  | .ret (some e) => (.ret (TagPGXTimeoutErr (some e)), wres.2.1, evs)
                  | .ret none => (.ret none, wres.2.1, evs)
                  | .panicked p => (.panicked p, wres.2.1, evs)

/-- Embedding of `SQLiteRepositoryTxer.BeginTxFunc` (`sqlite.go` lines
115-151).  With an ambient transaction, `fn` is invoked directly.
Otherwise: when `Timeout > 0` a context deadline is installed; `BeginTx`
and `PRAGMA busy_timeout` errors are passed through `TagSQLiteTimeoutErr`
(the pragma runs only when `Timeout > 0`); the repository is bound through
`WithTx` before the executor runs; the work closure is driven through
`Do`, a resulting error again passing through `TagSQLiteTimeoutErr`. -/
def SQLiteRepositoryTxer.BeginTxFunc {R : Type} (r : SQLiteRepositoryTxer)
    (withTxFunc : R → SQLiteRepositoryTxer → Handle → R)
    (w : TxWorld) (repo : R) (fn : Handle → R → FnOutcome) :
    DoResult × SQLiteRepositoryTxer × List Event :=
  match r.txn with
  | some h => (liftFn (fn h repo), r, [])
  | none =>
      let ctxEvs : List Event := if 0 < r.Timeout then [.ctxWithTimeout r.Timeout] else []
      match w.beginTx with
      | .error e => (.ret (TagSQLiteTimeoutErr (some e)), r, ctxEvs ++ [.beginTx])
      | .ok i =>
          let h := Handle.sqlTxWrapper i
          let ms := Int.tdiv r.Timeout 1000000
          let ps := sqlitePragmaBusyTimeoutSQL ms
          let preEvs := ctxEvs ++ [Event.beginTx] ++ (if 0 < r.Timeout then [Event.exec ps] else [])
          match (if 0 < r.Timeout then w.execErr ps else none) with
          | some e => (.ret (TagSQLiteTimeoutErr (some e)), r, preEvs)
          | none =>
              let wres := r.WithTx withTxFunc repo h
              match wres.1 with
              | .panicked p => (.panicked p, wres.2.1, preEvs ++ wres.2.2)
              | .ret repoTx =>
                  let dres := Do { commitErr := w.commitErr, rollbackErr := w.rollbackErr }
                    (fn h repoTx)
                  let evs := preEvs ++ wres.2.2 ++ dres.2
                  match dres.1 with
                  | .ret (some e) => (.ret (TagSQLiteTimeoutErr (some e)), wres.2.1, evs)
                  | .ret none => (.ret none, wres.2.1, evs)
                  | .panicked p => (.panicked p, wres.2.1, evs)

/-- Actions on the underlying `*sql.Tx` of an `SQLTxWrapper`. -/
inductive SQLBaseEvent : Type where
  | baseCommit
  | baseRollback
deriving DecidableEq

/-- Winner of the race inside `SQLTxWrapper.Commit` (`sql.go` lines
21-33) between the goroutine running the synchronous `s.base.Commit()`
and the context `Done` channel: either the commit completes first with
result `res`, or the context fires first with error `ctxErr` while the
best-effort `s.base.Rollback()` returns `rollbackRes`. -/
inductive CommitRaceOutcome : Type where
  | commitFirst (res : Option GoErr)
  | ctxDoneFirst (ctxErr : GoErr) (rollbackRes : Option GoErr)

/-- Embedding of `SQLTxWrapper.Commit` (`sql.go` lines 21-33): the
synchronous commit is always launched; if it wins the race its result is
returned; if the context fires first, a rollback is issued, its error
discarded, and the context error is returned. -/
def SQLTxWrapperCommit : CommitRaceOutcome → Option GoErr × List SQLBaseEvent
  | .commitFirst res => (res, [.baseCommit])
  | .ctxDoneFirst ctxErr _ => (some ctxErr, [.baseCommit, .baseRollback])

/-- Embedding of `SQLTxWrapper.Rollback` (`sql.go` lines 36-38): a direct
synchronous rollback. -/
def SQLTxWrapperRollback (baseRollbackErr : Option GoErr) : Option GoErr × List SQLBaseEvent :=
  (baseRollbackErr, [.baseRollback])

/-- Sample base error used in concrete witnesses. -/
def sampleErr : GoErr := .errorString ("boom")

/-- Sample rollback-failure error used in concrete witnesses. -/
def sampleRbErr : GoErr := .errorString ("rollback refused")

/-- Sample commit-failure error used in concrete witnesses. -/
def sampleCommitErr : GoErr := .errorString ("commit refused")

/-- Every error is in its own unwrap chain. -/
theorem GoErr.errIs_self (e : GoErr) : e.errIs e = true := by
  unfold GoErr.errIs; simp

/-- Every panic payload carries itself. -/
theorem PanicVal.carries_self (p : PanicVal) : p.carries p = true := by
  unfold PanicVal.carries; simp

/-- C2: for a work function that returns without panicking, `Do` rolls
back on a non-nil error — returning the original error unchanged when
rollback succeeds, and a wrap keeping both the original and the rollback
failure inspectable when it fails — and commits on a nil error, returning
nil on success and a wrap of the commit failure otherwise. -/
theorem Do_nonpanic_spec (tx : TxHandleBehavior) (e : GoErr) :
    ((Do tx (.ret (some e))).2 = [Event.rollback] ∧ (Do tx (.ret none)).2 = [Event.commit])
    ∧ (tx.rollbackErr = none → (Do tx (.ret (some e))).1 = .ret (some e))
    ∧ (∀ rE, tx.rollbackErr = some rE →
        (Do tx (.ret (some e))).1 = .ret (some (.rollbackFailed e rE))
        ∧ GoErr.errIs (.rollbackFailed e rE) e = true
        ∧ GoErr.errIs (.rollbackFailed e rE) rE = true)
    ∧ (tx.commitErr = none → (Do tx (.ret none)).1 = .ret none)
    ∧ (∀ cE, tx.commitErr = some cE →
        (Do tx (.ret none)).1 = .ret (some (.commitFailed cE))
        ∧ GoErr.errIs (.commitFailed cE) cE = true) := by
  obtain ⟨cE, rE⟩ := tx
  cases cE <;> cases rE <;>
    simp [Do, GoErr.errIs, GoErr.errIs_self, PanicVal.carries_self]

/-- Witness for C2 at concrete handles and errors. -/
theorem Do_nonpanic_spec_witness :
    (Do ⟨none, none⟩ (.ret (some sampleErr))).1 = .ret (some sampleErr)
    ∧ (Do ⟨none, some sampleRbErr⟩ (.ret (some sampleErr))).1
        = .ret (some (.rollbackFailed sampleErr sampleRbErr))
    ∧ (Do ⟨some sampleCommitErr, none⟩ (.ret none)).1
        = .ret (some (.commitFailed sampleCommitErr)) :=
  ⟨(Do_nonpanic_spec ⟨none, none⟩ sampleErr).2.1 rfl,
    ((Do_nonpanic_spec ⟨none, some sampleRbErr⟩ sampleErr).2.2.1 sampleRbErr rfl).1,
    ((Do_nonpanic_spec ⟨some sampleCommitErr, none⟩ sampleErr).2.2.2.2 sampleCommitErr rfl).1⟩

/-- C3: for a work function that panics, `Do` invokes `Rollback` and
re-raises the panic (never a normal return); when rollback fails the
re-raised payload is annotated with the rollback failure and still
carries the original payload. -/
theorem Do_panic_spec (tx : TxHandleBehavior) (p : PanicVal) :
    (Do tx (.panicked p)).2 = [Event.rollback]
    ∧ (∀ e, (Do tx (.panicked p)).1 ≠ .ret e)
    ∧ (tx.rollbackErr = none → (Do tx (.panicked p)).1 = .panicked p)
    ∧ (∀ rE, tx.rollbackErr = some rE →
        (Do tx (.panicked p)).1 = .panicked (.withRollbackErr p rE)
        ∧ PanicVal.carries (.withRollbackErr p rE) p = true) := by
  obtain ⟨cE, rE⟩ := tx
  cases rE <;> simp [Do, PanicVal.carries, PanicVal.carries_self]

/-- Witness for C3 at concrete handles and payloads. -/
theorem Do_panic_spec_witness :
    (Do ⟨none, none⟩ (.panicked (.val ("oops")))).1 = .panicked (.val ("oops"))
    ∧ (Do ⟨none, some sampleRbErr⟩ (.panicked (.val ("oops")))).1
        = .panicked (.withRollbackErr (.val ("oops")) sampleRbErr) :=
  ⟨(Do_panic_spec ⟨none, none⟩ (.val ("oops"))).2.2.1 rfl,
    ((Do_panic_spec ⟨none, some sampleRbErr⟩ (.val ("oops"))).2.2.2 sampleRbErr rfl).1⟩

/-- C9: the embedded-backend adapter races the synchronous commit against
the context: if the commit completes first its result is returned; if the
context fires first a best-effort rollback is issued, its error is
ignored (the returned value does not depend on it), and the context error
is returned instead of the commit result. -/
theorem sqlTxWrapper_commit_race (res : Option GoErr) (ctxErr : GoErr)
    (rbRes rbRes2 : Option GoErr) :
    SQLTxWrapperCommit (.commitFirst res) = (res, [.baseCommit])
    ∧ SQLTxWrapperCommit (.ctxDoneFirst ctxErr rbRes)
        = (some ctxErr, [.baseCommit, .baseRollback])
    ∧ SQLTxWrapperCommit (.ctxDoneFirst ctxErr rbRes)
        = SQLTxWrapperCommit (.ctxDoneFirst ctxErr rbRes2) :=
  ⟨rfl, rfl, rfl⟩

/-- C5: the constructors replace a configured timeout of zero or above
ten seconds by the ten-second default, but a negative timeout — which the
claim and the config documentation say must also be clamped — is kept
unchanged by both constructors, so the claim fails at `-1s`. -/
theorem newTxer_negative_timeout_unclamped :
    (NewPGXRepositoryTxer (-second)).Timeout = -second
    ∧ (NewSQLiteRepositoryTxer (-second)).Timeout = -second
    ∧ (NewPGXRepositoryTxer (-second)).Timeout < 0
    ∧ (0 : Int) < DefaultTimeout
    ∧ (NewPGXRepositoryTxer 0).Timeout = DefaultTimeout
    ∧ (NewSQLiteRepositoryTxer 0).Timeout = DefaultTimeout
    ∧ (NewPGXRepositoryTxer (11 * second)).Timeout = DefaultTimeout
    ∧ (NewPGXRepositoryTxer (5 * second)).Timeout = 5 * second := by
  refine ⟨?_, ?_, ?_, ?_, ?_, ?_, ?_, ?_⟩ <;> decide

/-- Recognition condition of the relational classifier as the claim
states it: the error exposes (via `errors.As`) a backend error whose code
is the idle-in-transaction-session-timeout code, written either as the
named library constant or as the numeric literal "25P04". -/
def pgxClaimRecognized (e : GoErr) : Bool :=
  match e.asPgError with
  | some code => code = pgerrcodeIdleInTransactionSessionTimeout || code = "25P04"
  | none => false

/-- Recognition condition of the embedded-backend classifier as the claim
states it: context deadline exceeded, or a native backend error whose
code is busy or locked. -/
def sqliteClaimRecognized (e : GoErr) : Bool :=
  e.isDeadlineExceeded ||
    match e.asSQLiteError with
    | some code => code = SQLITE_BUSY || code = SQLITE_LOCKED
    | none => false

/-- C6: each classifier rewraps exactly its recognized timeout conditions
with the distinguished transaction-timeout tag and returns every other
error unchanged. -/
theorem timeout_classifiers_spec (e : GoErr) :
    (pgxClaimRecognized e = true →
        TagPGXTimeoutErr (some e) = some (.tagTransactionTimeout e))
    ∧ (pgxClaimRecognized e = false → TagPGXTimeoutErr (some e) = some e)
    ∧ (sqliteClaimRecognized e = true →
        TagSQLiteTimeoutErr (some e) = some (.tagTransactionTimeout e))
    ∧ (sqliteClaimRecognized e = false → TagSQLiteTimeoutErr (some e) = some e) := by
  refine ⟨?_, ?_, ?_, ?_⟩ <;> intro h <;>
    simp only [pgxClaimRecognized, sqliteClaimRecognized] at h <;>
    simp only [TagPGXTimeoutErr, TagSQLiteTimeoutErr]
  · split at h
    · simp [h]
    · exact absurd h (by simp)
  · split at h
    · simp [h]
    · rfl
  · cases hD : e.isDeadlineExceeded
    · rw [hD] at h
      simp only [Bool.false_or] at h
      split at h
      · simp [hD, h]
      · exact absurd h (by simp)
    · simp [hD]
  · cases hD : e.isDeadlineExceeded
    · rw [hD] at h
      simp only [Bool.false_or] at h
      split at h
      · simp [hD, h]
      · simp [hD]
    · rw [hD] at h
      simp at h

/-- Witness for C6 at concrete errors: a recognized relational code is
tagged by the relational classifier but passed through by the embedded
one, and a context deadline is tagged by the embedded classifier but
passed through by the relational one. -/
theorem timeout_classifiers_spec_witness :
    TagPGXTimeoutErr (some (.pgError ("25P03")))
        = some (.tagTransactionTimeout (.pgError ("25P03")))
    ∧ TagSQLiteTimeoutErr (some (.pgError ("25P03"))) = some (.pgError ("25P03"))
    ∧ TagSQLiteTimeoutErr (some .contextDeadlineExceeded)
        = some (.tagTransactionTimeout .contextDeadlineExceeded)
    ∧ TagPGXTimeoutErr (some .contextDeadlineExceeded) = some .contextDeadlineExceeded :=
  ⟨(timeout_classifiers_spec (.pgError ("25P03"))).1 (by decide),
    (timeout_classifiers_spec (.pgError ("25P03"))).2.2.2 (by decide),
    (timeout_classifiers_spec .contextDeadlineExceeded).2.2.1 (by decide),
    (timeout_classifiers_spec .contextDeadlineExceeded).2.1 (by decide)⟩

/-- C7: on a coordinator whose `txn` field is set, `WithTx` returns its
input repository unchanged for every handle argument (wrong-typed ones
included), leaves the receiver as is, and performs no action at all — no
binder invocation and no panic. -/
theorem withTx_ambient_returns_repo {R : Type} (rp : PGXRepositoryTxer)
    (rs : SQLiteRepositoryTxer)
    (bp : R → PGXRepositoryTxer → Handle → R) (bs : R → SQLiteRepositoryTxer → Handle → R)
    (repo : R) (t : Handle) :
    (rp.txn.isSome = true → rp.WithTx bp repo t = (.ret repo, rp, []))
    ∧ (rs.txn.isSome = true → rs.WithTx bs repo t = (.ret repo, rs, [])) := by
  constructor <;> intro h <;>
    simp [PGXRepositoryTxer.WithTx, SQLiteRepositoryTxer.WithTx, h]

/-- Witness for C7 on in-transaction coordinators and a wrong-typed
handle. -/
theorem withTx_ambient_returns_repo_witness :
    PGXRepositoryTxer.WithTx ⟨DefaultTimeout, some (.pgxTx 1)⟩ (fun (rr : Nat) _ _ => rr + 1)
        42 (.otherTx 7)
      = (.ret 42, ⟨DefaultTimeout, some (.pgxTx 1)⟩, [])
    ∧ SQLiteRepositoryTxer.WithTx ⟨DefaultTimeout, some (.sqlTxWrapper 1)⟩
        (fun (rr : Nat) _ _ => rr + 1) 42 (.otherTx 7)
      = (.ret 42, ⟨DefaultTimeout, some (.sqlTxWrapper 1)⟩, []) :=
  ⟨(withTx_ambient_returns_repo ⟨DefaultTimeout, some (.pgxTx 1)⟩
      ⟨DefaultTimeout, some (.sqlTxWrapper 1)⟩ (fun rr _ _ => rr + 1) (fun rr _ _ => rr + 1)
      42 (.otherTx 7)).1 rfl,
    (withTx_ambient_returns_repo ⟨DefaultTimeout, some (.pgxTx 1)⟩
      ⟨DefaultTimeout, some (.sqlTxWrapper 1)⟩ (fun rr _ _ => rr + 1) (fun rr _ _ => rr + 1)
      42 (.otherTx 7)).2 rfl⟩

/-- C8: on a root coordinator (no ambient transaction, so the ambient
short-circuit of C7 does not apply), `WithTx` with a handle whose dynamic
type is not the native one for the backend panics instead of returning a
repository or an error, for every repository argument and binder. -/
theorem withTx_wrong_handle_type_panics {R : Type} (rp : PGXRepositoryTxer)
    (rs : SQLiteRepositoryTxer)
    (bp : R → PGXRepositoryTxer → Handle → R) (bs : R → SQLiteRepositoryTxer → Handle → R)
    (repo : R) (t : Handle) :
    (rp.txn = none → t.isPgxTx = false →
        rp.WithTx bp repo t = (.panicked (.val pgxWithTxPanicMsg), rp, []))
    ∧ (rs.txn = none → t.isSQLTxWrapper = false →
        rs.WithTx bs repo t = (.panicked (.val sqliteWithTxPanicMsg), rs, [])) := by
  constructor <;> intro h1 h2 <;>
    cases t <;>
    simp_all [PGXRepositoryTxer.WithTx, SQLiteRepositoryTxer.WithTx,
      Handle.isPgxTx, Handle.isSQLTxWrapper]

/-- Witness for C8: each backend panics on the other backend's handle
type. -/
theorem withTx_wrong_handle_type_panics_witness :
    PGXRepositoryTxer.WithTx ⟨DefaultTimeout, none⟩ (fun (rr : Nat) _ _ => rr) 5
        (.sqlTxWrapper 0)
      = (.panicked (.val pgxWithTxPanicMsg), ⟨DefaultTimeout, none⟩, [])
    ∧ SQLiteRepositoryTxer.WithTx ⟨DefaultTimeout, none⟩ (fun (rr : Nat) _ _ => rr) 5
        (.pgxTx 0)
      = (.panicked (.val sqliteWithTxPanicMsg), ⟨DefaultTimeout, none⟩, []) :=
  ⟨(withTx_wrong_handle_type_panics ⟨DefaultTimeout, none⟩ ⟨DefaultTimeout, none⟩
      (fun rr _ _ => rr) (fun rr _ _ => rr) 5 (.sqlTxWrapper 0)).1 rfl rfl,
    (withTx_wrong_handle_type_panics ⟨DefaultTimeout, none⟩ ⟨DefaultTimeout, none⟩
      (fun rr _ _ => rr) (fun rr _ _ => rr) 5 (.pgxTx 0)).2 rfl rfl⟩

/-- C4: on a coordinator whose `txn` field is set, `BeginTxFunc` invokes
the caller function directly on the stored handle and the input
repository and forwards its outcome verbatim: the trace is empty (no new
native transaction, no context timeout, no session directive, no binder,
no commit or rollback), the receiver is unchanged, errors are not passed
through the timeout classifier, and panics propagate. -/
theorem beginTxFunc_ambient_reuse {R : Type} (rp : PGXRepositoryTxer)
    (rs : SQLiteRepositoryTxer)
    (bp : R → PGXRepositoryTxer → Handle → R) (bs : R → SQLiteRepositoryTxer → Handle → R)
    (w : TxWorld) (repo : R) (fn : Handle → R → FnOutcome) (h : Handle) :
    (rp.txn = some h → rp.BeginTxFunc bp w repo fn = (liftFn (fn h repo), rp, []))
    ∧ (rs.txn = some h → rs.BeginTxFunc bs w repo fn = (liftFn (fn h repo), rs, [])) := by
  constructor <;> intro ht <;>
    simp [PGXRepositoryTxer.BeginTxFunc, SQLiteRepositoryTxer.BeginTxFunc, ht]

/-- Witness for C4: the inner function returns an error that the
relational classifier would tag, and it comes back untagged from the
ambient path. -/
theorem beginTxFunc_ambient_reuse_witness :
    PGXRepositoryTxer.BeginTxFunc ⟨DefaultTimeout, some (.pgxTx 3)⟩ (fun (rr : Nat) _ _ => rr)
        { beginTx := Except.ok 9, execErr := fun _ => none, commitErr := none,
          rollbackErr := none }
        7 (fun _ _ => .ret (some (.pgError ("25P03"))))
      = (.ret (some (.pgError ("25P03"))), ⟨DefaultTimeout, some (.pgxTx 3)⟩, [])
    ∧ SQLiteRepositoryTxer.BeginTxFunc ⟨DefaultTimeout, some (.sqlTxWrapper 3)⟩
        (fun (rr : Nat) _ _ => rr)
        { beginTx := Except.ok 9, execErr := fun _ => none, commitErr := none,
          rollbackErr := none }
        7 (fun _ _ => .ret (some .contextDeadlineExceeded))
      = (.ret (some .contextDeadlineExceeded), ⟨DefaultTimeout, some (.sqlTxWrapper 3)⟩, []) :=
  ⟨(beginTxFunc_ambient_reuse ⟨DefaultTimeout, some (.pgxTx 3)⟩
      ⟨DefaultTimeout, some (.sqlTxWrapper 3)⟩ (fun rr _ _ => rr) (fun rr _ _ => rr)
      { beginTx := Except.ok 9, execErr := fun _ => none, commitErr := none,
        rollbackErr := none }
      7 (fun _ _ => .ret (some (.pgError ("25P03")))) (.pgxTx 3)).1 rfl,
    (beginTxFunc_ambient_reuse ⟨DefaultTimeout, some (.pgxTx 3)⟩
      ⟨DefaultTimeout, some (.sqlTxWrapper 3)⟩ (fun rr _ _ => rr) (fun rr _ _ => rr)
      { beginTx := Except.ok 9, execErr := fun _ => none, commitErr := none,
        rollbackErr := none }
      7 (fun _ _ => .ret (some .contextDeadlineExceeded)) (.sqlTxWrapper 3)).2 rfl⟩

/-- `WithTx` returns its receiver unchanged (the source writes only the
local copy `cpy`). -/
theorem pgx_withTx_receiver_eq {R : Type} (r : PGXRepositoryTxer)
    (b : R → PGXRepositoryTxer → Handle → R) (repo : R) (t : Handle) :
    (r.WithTx b repo t).2.1 = r := by
  unfold PGXRepositoryTxer.WithTx
  split
  · rfl
  · split <;> rfl

/-- `WithTx` returns its receiver unchanged (SQLite coordinator). -/
theorem sqlite_withTx_receiver_eq {R : Type} (r : SQLiteRepositoryTxer)
    (b : R → SQLiteRepositoryTxer → Handle → R) (repo : R) (t : Handle) :
    (r.WithTx b repo t).2.1 = r := by
  unfold SQLiteRepositoryTxer.WithTx
  split
  · rfl
  · split <;> rfl

/-- `BeginTxFunc` returns its receiver unchanged (pgx coordinator). -/
theorem pgx_beginTxFunc_receiver_eq {R : Type} (r : PGXRepositoryTxer)
    (b : R → PGXRepositoryTxer → Handle → R) (w : TxWorld) (repo : R)
    (fn : Handle → R → FnOutcome) :
    (r.BeginTxFunc b w repo fn).2.1 = r := by
  cases hr : r.txn with
  | some h => simp [PGXRepositoryTxer.BeginTxFunc, hr]
  | none =>
    cases hb : w.beginTx with
    | error e => simp [PGXRepositoryTxer.BeginTxFunc, hr, hb]
    | ok i =>
      cases h1 : w.execErr (pgxSetTransactionTimeoutSQL (Int.tdiv r.Timeout 1000000)) with
      | some e => simp [PGXRepositoryTxer.BeginTxFunc, hr, hb, h1]
      | none =>
        cases h2 : w.execErr (pgxSetIdleTimeoutSQL (Int.tdiv r.Timeout 1000000)) with
        | some e => simp [PGXRepositoryTxer.BeginTxFunc, hr, hb, h1, h2]
        | none =>
          simp only [PGXRepositoryTxer.BeginTxFunc, PGXRepositoryTxer.WithTx, hr, hb, h1, h2,
            Option.isSome_none, Bool.false_eq_true, if_false]
          split <;> rfl

/-- `BeginTxFunc` returns its receiver unchanged (SQLite coordinator). -/
theorem sqlite_beginTxFunc_receiver_eq {R : Type} (r : SQLiteRepositoryTxer)
    (b : R → SQLiteRepositoryTxer → Handle → R) (w : TxWorld) (repo : R)
    (fn : Handle → R → FnOutcome) :
    (r.BeginTxFunc b w repo fn).2.1 = r := by
  cases hr : r.txn with
  | some h => simp [SQLiteRepositoryTxer.BeginTxFunc, hr]
  | none =>
    cases hb : w.beginTx with
    | error e => simp [SQLiteRepositoryTxer.BeginTxFunc, hr, hb]
    | ok i =>
      by_cases hT : 0 < r.Timeout
      · cases hp : w.execErr (sqlitePragmaBusyTimeoutSQL (Int.tdiv r.Timeout 1000000)) with
        | some e => simp [SQLiteRepositoryTxer.BeginTxFunc, hr, hb, hT, hp]
        | none =>
          simp only [SQLiteRepositoryTxer.BeginTxFunc, SQLiteRepositoryTxer.WithTx, hr, hb, hT,
            hp, Option.isSome_none, Bool.false_eq_true, if_false, if_true]
          split <;> rfl
      · simp only [SQLiteRepositoryTxer.BeginTxFunc, SQLiteRepositoryTxer.WithTx, hr, hb, hT,
          Option.isSome_none, Bool.false_eq_true, if_false, if_true]
        split <;> rfl

/-- Environment in which every database call succeeds. -/
def okWorld : TxWorld :=
  { beginTx := Except.ok 0
    execErr := fun _ => none
    commitErr := none
    rollbackErr := none }

/-- C10: `WithTx` and `BeginTxFunc` never mutate a root coordinator: the
receiver keeps `txn = none` and `InTx` stays false after the call, and
the handle is installed only on the fresh copy handed to the binder. -/
theorem coordinator_receiver_unmutated {R : Type} (rp : PGXRepositoryTxer)
    (rs : SQLiteRepositoryTxer)
    (bp : R → PGXRepositoryTxer → Handle → R) (bs : R → SQLiteRepositoryTxer → Handle → R)
    (w : TxWorld) (repo : R) (fn : Handle → R → FnOutcome) (t : Handle) :
    (rp.txn = none →
        (rp.WithTx bp repo t).2.1 = rp
        ∧ (rp.BeginTxFunc bp w repo fn).2.1 = rp
        ∧ ((rp.WithTx bp repo t).2.1).InTx = false
        ∧ ((rp.BeginTxFunc bp w repo fn).2.1).InTx = false
        ∧ ∀ i, t = .pgxTx i →
            (rp.WithTx bp repo t).1 = GoVal.ret (bp repo { rp with txn := some t } t))
    ∧ (rs.txn = none →
        (rs.WithTx bs repo t).2.1 = rs
        ∧ (rs.BeginTxFunc bs w repo fn).2.1 = rs
        ∧ ((rs.WithTx bs repo t).2.1).InTx = false
        ∧ ((rs.BeginTxFunc bs w repo fn).2.1).InTx = false
        ∧ ∀ i, t = .sqlTxWrapper i →
            (rs.WithTx bs repo t).1 = GoVal.ret (bs repo { rs with txn := some t } t)) := by
  constructor <;> intro h
  · refine ⟨pgx_withTx_receiver_eq _ _ _ _, pgx_beginTxFunc_receiver_eq _ _ _ _ _, ?_, ?_, ?_⟩
    · rw [pgx_withTx_receiver_eq]
      simp [PGXRepositoryTxer.InTx, h]
    · rw [pgx_beginTxFunc_receiver_eq]
      simp [PGXRepositoryTxer.InTx, h]
    · rintro i rfl
      simp [PGXRepositoryTxer.WithTx, h]
  · refine ⟨sqlite_withTx_receiver_eq _ _ _ _, sqlite_beginTxFunc_receiver_eq _ _ _ _ _,
      ?_, ?_, ?_⟩
    · rw [sqlite_withTx_receiver_eq]
      simp [SQLiteRepositoryTxer.InTx, h]
    · rw [sqlite_beginTxFunc_receiver_eq]
      simp [SQLiteRepositoryTxer.InTx, h]
    · rintro i rfl
      simp [SQLiteRepositoryTxer.WithTx, h]

/-- Witness for C10 on concrete root coordinators and a succeeding
environment. -/
theorem coordinator_receiver_unmutated_witness :
    (PGXRepositoryTxer.WithTx ⟨DefaultTimeout, none⟩ (fun (rr : Nat) _ _ => rr) 0
        (.pgxTx 2)).2.1 = ⟨DefaultTimeout, none⟩
    ∧ (PGXRepositoryTxer.BeginTxFunc ⟨DefaultTimeout, none⟩ (fun (rr : Nat) _ _ => rr) okWorld 0
        (fun _ _ => .ret none)).2.1 = ⟨DefaultTimeout, none⟩
    ∧ (SQLiteRepositoryTxer.WithTx ⟨DefaultTimeout, none⟩ (fun (rr : Nat) _ _ => rr) 0
        (.pgxTx 2)).2.1 = ⟨DefaultTimeout, none⟩
    ∧ (SQLiteRepositoryTxer.BeginTxFunc ⟨DefaultTimeout, none⟩ (fun (rr : Nat) _ _ => rr)
        okWorld 0 (fun _ _ => .ret none)).2.1 = ⟨DefaultTimeout, none⟩ :=
  ⟨((coordinator_receiver_unmutated ⟨DefaultTimeout, none⟩ ⟨DefaultTimeout, none⟩
      (fun rr _ _ => rr) (fun rr _ _ => rr) okWorld 0 (fun _ _ => .ret none) (.pgxTx 2)).1
      rfl).1,
    ((coordinator_receiver_unmutated ⟨DefaultTimeout, none⟩ ⟨DefaultTimeout, none⟩
      (fun rr _ _ => rr) (fun rr _ _ => rr) okWorld 0 (fun _ _ => .ret none) (.pgxTx 2)).1
      rfl).2.1,
    ((coordinator_receiver_unmutated ⟨DefaultTimeout, none⟩ ⟨DefaultTimeout, none⟩
      (fun rr _ _ => rr) (fun rr _ _ => rr) okWorld 0 (fun _ _ => .ret none) (.pgxTx 2)).2
      rfl).1,
    ((coordinator_receiver_unmutated ⟨DefaultTimeout, none⟩ ⟨DefaultTimeout, none⟩
      (fun rr _ _ => rr) (fun rr _ _ => rr) okWorld 0 (fun _ _ => .ret none) (.pgxTx 2)).2
      rfl).2.1⟩

/-- Environment in which `BeginTx` succeeds but every subsequent SQL
statement on the new transaction fails. -/
def leakWorld : TxWorld :=
  { beginTx := Except.ok 0
    execErr := fun _ => some (.errorString ("connection reset"))
    commitErr := none
    rollbackErr := none }

/-- Top-level pgx `BeginTxFunc` call in the `leakWorld` environment. -/
def pgxLeakCall : DoResult × PGXRepositoryTxer × List Event :=
  PGXRepositoryTxer.BeginTxFunc ⟨DefaultTimeout, none⟩ (fun (rr : Nat) _ _ => rr) leakWorld 0
    (fun _ _ => .ret none)

/-- Top-level SQLite `BeginTxFunc` call in the `leakWorld` environment. -/
def sqliteLeakCall : DoResult × SQLiteRepositoryTxer × List Event :=
  SQLiteRepositoryTxer.BeginTxFunc ⟨DefaultTimeout, none⟩ (fun (rr : Nat) _ _ => rr) leakWorld 0
    (fun _ _ => .ret none)

/-- C1: evaluation of both coordinators at an exit path that falsifies the
claim.  The native transaction is successfully begun (one `beginTx` event)
but the session directive issued right after it fails (`SET LOCAL
transaction_timeout` resp. `PRAGMA busy_timeout`), and `BeginTxFunc`
returns that error with neither `Commit` nor `Rollback` ever invoked on
the begun transaction handle — not "exactly one of them, exactly once". -/
theorem beginTxFunc_directive_failure_resolves_nothing :
    (pgxLeakCall.2.2.count .beginTx = 1
      ∧ pgxLeakCall.2.2.count .commit = 0
      ∧ pgxLeakCall.2.2.count .rollback = 0
      ∧ pgxLeakCall.1 = .ret (some (.errorString ("connection reset"))))
    ∧ (sqliteLeakCall.2.2.count .beginTx = 1
      ∧ sqliteLeakCall.2.2.count .commit = 0
      ∧ sqliteLeakCall.2.2.count .rollback = 0
      ∧ sqliteLeakCall.1 = .ret (some (.errorString ("connection reset")))) := by
  refine ⟨⟨?_, ?_, ?_, ?_⟩, ⟨?_, ?_, ?_, ?_⟩⟩ <;> rfl
